import Mathlib

/-!
Verification development for the job-lifecycle core of
`pymatgen/io/abinitio/task.py`: the `Task` status state machine
(`set_status`, `check_status`, `poll`, `wait`), the `ParalConf` /
`ParalHints` resource-hint model with `select_optimal_conf`, the
`TaskPolicy` configuration validation, `TaskResults.assert_valid`,
and `AbinitTask.build`.

The Python code is embedded shallowly: statuses are the integer codes
used by the source (1, 2, 4, 8, 16, 32); Python `None` becomes `Option`;
exceptions become `Except PyErr`; the filesystem and the ABINIT event
parser are passed in explicitly as an `Env` value describing what the
files contain and what the parser would return at the moment of the
call.  Wall-clock timestamps appended to the history log are abstracted
away (the history entry tags are kept, the `time.asctime()` suffix is
dropped).
-/

/-- Python exception outcomes that the embedded code can produce. -/
inductive PyErr
  | runtimeError (msg : String)
  | valueError (msg : String)
  | nameError (missing : String)
  | attributeError (missing : String)
  | indexError
deriving DecidableEq

deriving instance DecidableEq for Except

/-- Python `str` of an optional integer (`str(None) = "None"`). -/
def pyStrOptInt : Option Int → String
  | none => "None"
  | some n => toString n

/-- Python `str` of an optional string (`str(None) = "None"`). -/
def pyStrOpt : Option String → String
  | none => "None"
  | some s => s

/-- `Task.S_READY`: task is ready for submission. -/
abbrev Task.S_READY : Nat := 1
/-- `Task.S_SUB`: task has been submitted. -/
abbrev Task.S_SUB : Nat := 2
/-- `Task.S_RUN`: task is running. -/
abbrev Task.S_RUN : Nat := 4
/-- `Task.S_DONE`: task done (not necessarily successfully). -/
abbrev Task.S_DONE : Nat := 8
/-- `Task.S_ERROR`: task raised some kind of error. -/
abbrev Task.S_ERROR : Nat := 16
/-- `Task.S_OK`: task completed successfully. -/
abbrev Task.S_OK : Nat := 32

/-- `Task.POSSIBLE_STATUS`: the keys of `STATUS2STR`. -/
abbrev Task.POSSIBLE_STATUS : List Nat := [1, 2, 4, 8, 16, 32]

/--
Mutable state of a `Task` after construction: the `_status` attribute
(always set, since `__init__` calls `set_status(S_READY)`), the
`_returncode` attribute (`none` while the attribute is unset, in which
case the `returncode` property falls back to `0`; `some rc` once
`poll`/`wait`/`communicate` stored the process result, where `rc = none`
is Python `None`), and the bounded `history` deque (maxlen 10).
-/
structure TaskState where
  _status : Nat
  _returncode : Option (Option Int)
  history : List String
deriving DecidableEq

/-- `collections.deque(maxlen=10)` append: oldest entries evicted first. -/
def histAppend (h : List String) (s : String) : List String :=
  if 10 < (h ++ [s]).length then (h ++ [s]).drop ((h ++ [s]).length - 10) else h ++ [s]

/-- The `Task.status` property. -/
def Task.status (t : TaskState) : Nat := t._status

/--
The `Task.returncode` property: returns `self._returncode` if the
attribute is set (it may be Python `None`), else `0`.
-/
def Task.returncode (t : TaskState) : Option Int :=
  match t._returncode with
  | none => some 0
  | some rc => rc

/--
`Task.set_status(status, err_info)`: raises `RuntimeError` on a status
outside `POSSIBLE_STATUS`, otherwise stores the new status, appends a
history entry when the status changed and is one of
Submitted/Completed/Error, and returns the status.
-/
def Task.set_status (t : TaskState) (status : Nat) (err_info : Option String) :
    Except PyErr (TaskState × Nat) :=
  if status ∈ Task.POSSIBLE_STATUS then
    let changed : Bool := status != t._status
    let t1 : TaskState := { t with _status := status }
    let t2 : TaskState :=
      if changed then
        if status = Task.S_SUB then
          { t1 with history := histAppend t1.history "Submitted" }
        else if status = Task.S_OK then
          { t1 with history := histAppend t1.history "Completed" }
        else if status = Task.S_ERROR then
          { t1 with history := histAppend t1.history ("Error info:\n " ++ pyStrOpt err_info) }
        else t1
      else t1
    Except.ok (t2, status)
  else
    Except.error (PyErr.runtimeError ("Unknown status: " ++ toString status))

/-- `return self.set_status(status, err_info)` as it appears in `check_status`. -/
def Task.retSet (t : TaskState) (status : Nat) (err_info : Option String) :
    TaskState × Except PyErr (Option Nat) :=
  match Task.set_status t status err_info with
  | Except.ok (t1, s) => (t1, Except.ok (some s))
  | Except.error e => (t, Except.error e)

/-- State of one on-disk file as seen by `check_status`. -/
structure FileState where
  fexists : Bool
  content : String
deriving DecidableEq

/-- The parsed ABINIT event report (`EventParser().parse(...)` result). -/
structure EventReport where
  run_completed : Bool
  errors : List String
  bugs : List String
deriving DecidableEq

/-- Outcome of `EventParser().parse(self.output_file.path)`. -/
inductive ParseOutcome
  | ok (report : EventReport)
  | parseFail (msg : String)
deriving DecidableEq

/--
External environment consulted by `check_status`: the output, stderr
and queue-stderr artifacts, and what the event parser would return on
the output artifact right now.
-/
structure Env where
  output_file : FileState
  stderr_file : FileState
  qerr_file : FileState
  parse : ParseOutcome
deriving DecidableEq

/--
Tail of `Task.check_status` from `parser = EventParser()` onwards:
parse failure → Error; `run_completed` → Ok; report errors/bugs →
the source evaluates `err_info=str(report.errors) + str(report_bus)`
where `report_bus` is an undefined name, so a `NameError` propagates;
non-empty stderr → Error; non-empty queue stderr → Error; otherwise
the job is assumed to be still running.
-/
def Task.check_status_report (t : TaskState) (env : Env) :
    TaskState × Except PyErr (Option Nat) :=
  match env.parse with
  | ParseOutcome.parseFail msg => Task.retSet t Task.S_ERROR (some msg)
  | ParseOutcome.ok report =>
    if report.run_completed then
      Task.retSet t Task.S_OK none
    else if report.errors ≠ [] ∨ report.bugs ≠ [] then
      (t, Except.error (PyErr.nameError "report_bus"))
    else if env.stderr_file.fexists ∧ env.stderr_file.content ≠ "" then
      Task.retSet t Task.S_ERROR (some env.stderr_file.content)
    else if env.qerr_file.fexists ∧ env.qerr_file.content ≠ "" then
      Task.retSet t Task.S_ERROR (some env.qerr_file.content)
    else
      Task.retSet t Task.S_RUN none

/--
`Task.check_status()`: bare `return` (Python `None`) below `S_SUB`;
Error on a nonzero (or `None`) recorded return code; if the output
artifact is missing and stderr is missing too the current status is
returned unchanged; if stderr exists and is non-empty the source
evaluates `err_info=err_msf` where `err_msf` is an undefined name, so a
`NameError` propagates; otherwise control falls through to the event
parser (`check_status_report`).
-/
def Task.check_status (t : TaskState) (env : Env) :
    TaskState × Except PyErr (Option Nat) :=
  if t._status < Task.S_SUB then
    (t, Except.ok none)
  else if Task.returncode t ≠ some 0 then
    Task.retSet t Task.S_ERROR (some ("return code " ++ pyStrOptInt (Task.returncode t)))
  else if env.output_file.fexists then
    Task.check_status_report t env
  else if ¬ env.stderr_file.fexists then
    (t, Except.ok (some t._status))
  else if env.stderr_file.content ≠ "" then
    (t, Except.error (PyErr.nameError "err_msf"))
  else
    Task.check_status_report t env

/--
`Task.poll()`: store the process poll result in `_returncode`; a
non-`None` result forces status Done.  The process result is passed in
(`none` for a still-running process, and also what `FakeProcess.poll`
returns for a never-submitted task).
-/
def Task.poll (t : TaskState) (proc_rc : Option Int) :
    TaskState × Except PyErr (Option Int) :=
  let t1 : TaskState := { t with _returncode := some proc_rc }
  match proc_rc with
  | none => (t1, Except.ok none)
  | some rc =>
    match Task.set_status t1 Task.S_DONE none with
    | Except.ok (t2, _) => (t2, Except.ok (some rc))
    | Except.error e => (t1, Except.error e)

/--
`Task.wait()`: store the blocking wait result and force status Done.
(On a never-submitted task `FakeProcess.wait` raises before any state
change, so that case is outside this function.)
-/
def Task.wait (t : TaskState) (proc_rc : Int) :
    TaskState × Except PyErr Int :=
  let t1 : TaskState := { t with _returncode := some (some proc_rc) }
  match Task.set_status t1 Task.S_DONE none with
  | Except.ok (t2, _) => (t2, Except.ok proc_rc)
  | Except.error e => (t1, Except.error e)

/-- The status effect of `TaskManager.launch`: `task.set_status(task.S_SUB)`. -/
def Task.submit (t : TaskState) : TaskState × Except PyErr (Option Nat) :=
  Task.retSet t Task.S_SUB none

/--
The status effect of `TaskManager.autoparal` after the probe run:
`task.set_status(task.S_READY)` — the only Ready-reset outside
construction.
-/
def TaskManager.autoparal_reset (t : TaskState) : Except PyErr (TaskState × Nat) :=
  Task.set_status t Task.S_READY none

/-!
## ParalConf / ParalHints (resource hints) and the selection algorithm
-/

/--
A Python value stored in an attribute-dictionary (`AttrDict`) such as
`TaskPolicy`: an integer, a string, `None`, a boolean, or a list (the
`constraints` list, structurally opaque to the core).
-/
inductive PVal
  | vint (n : Int)
  | vstr (s : String)
  | vnone
  | vbool (b : Bool)
  | vlist (l : List String)
deriving DecidableEq

/-- Python truthiness of a `PVal`. -/
def PVal.truthy : PVal → Bool
  | .vint n => n != 0
  | .vstr s => s != ""
  | .vnone => false
  | .vbool b => b
  | .vlist l => !l.isEmpty

/-- Dictionary lookup on an association list (first match wins). -/
def dlookup : List (String × PVal) → String → Option PVal
  | [], _ => none
  | (k, v) :: rest, key => if k = key then some v else dlookup rest key

/--
`ParalConf`: one candidate parallel configuration reported by ABINIT.
Defaults (`omp_ncpus = 1`, `mem_per_cpu = 0`, `vars = {}`) are already
applied, as `ParalConf.__init__` does.  `efficiency` and `mem_per_cpu`
are modelled as rationals.
-/
structure ParalConf where
  tot_ncpus : Int
  mpi_ncpus : Int
  omp_ncpus : Int
  mem_per_cpu : ℚ
  efficiency : ℚ
  vars : List (String × Int)
deriving DecidableEq

/-- `ParalConf.speedup = efficiency * tot_ncpus`. -/
def ParalConf.speedup (c : ParalConf) : ℚ :=
  c.efficiency * (c.tot_ncpus : ℚ)

/-- Stable insertion into an ascending-by-key list (earlier elements stay in front of later equal-key elements, as Python's stable sort guarantees). -/
def insertAscBy (key : ParalConf → ℚ) (x : ParalConf) : List ParalConf → List ParalConf
  | [] => [x]
  | y :: ys => if key x ≤ key y then x :: y :: ys else y :: insertAscBy key x ys

/-- Stable ascending sort by key, modelling `list.sort(key=...)`. -/
def sortAscBy (key : ParalConf → ℚ) : List ParalConf → List ParalConf
  | [] => []
  | x :: xs => insertAscBy key x (sortAscBy key xs)

/--
`ParalHints`: the configurations of one `<RUN_HINTS>` section plus the
header dictionary (modelled as integer-valued entries).
-/
structure ParalHints where
  header : List (String × Int)
  _confs : List ParalConf
deriving DecidableEq

/-- `ParalHints.copy`: fresh object with the same header and configuration list. -/
def ParalHints.copy (h : ParalHints) : ParalHints :=
  ⟨h.header, h._confs⟩

/-- `ParalHints.sort_by_speedup()` (in place in Python; functional here). -/
def ParalHints.sort_by_speedup (h : ParalHints) : ParalHints :=
  ⟨h.header, sortAscBy ParalConf.speedup h._confs⟩

/-- `ParalHints.sort_by_efficiency()`. -/
def ParalHints.sort_by_efficiency (h : ParalHints) : ParalHints :=
  ⟨h.header, sortAscBy ParalConf.efficiency h._confs⟩

/--
`ParalHints.select_optimal_conf(policy)`: sort a copy by ascending
speedup, then return `hints[-1].copy()`.  On an empty hint set the
`if not hints` branch performs a dead `self.copy().sort_by_speedup()`
and then still evaluates `hints[-1]`, which raises `IndexError` on the
empty list.  The `policy` argument is accepted but unused (constraint
filtering and the mode dispatch are commented out in the source).
-/
def ParalHints.select_optimal_conf (h : ParalHints) (policy : List (String × PVal)) :
    Except PyErr ParalConf :=
  let hints := (h.copy).sort_by_speedup
  if hne : hints._confs = [] then
    Except.error PyErr.indexError
  else
    Except.ok (hints._confs.getLast hne)

lemma mem_insertAscBy (key : ParalConf → ℚ) (x a : ParalConf) (l : List ParalConf) :
    a ∈ insertAscBy key x l ↔ a = x ∨ a ∈ l := by
  induction l with
  | nil => simp [insertAscBy]
  | cons y ys ih =>
    simp only [insertAscBy]
    split
    · simp [List.mem_cons]
    · simp only [List.mem_cons, ih]
      tauto

lemma insertAscBy_ne_nil (key : ParalConf → ℚ) (x : ParalConf) (l : List ParalConf) :
    insertAscBy key x l ≠ [] := by
  cases l with
  | nil => simp [insertAscBy]
  | cons y ys =>
    simp only [insertAscBy]
    split <;> simp

lemma sortAscBy_eq_nil (key : ParalConf → ℚ) (l : List ParalConf) :
    sortAscBy key l = [] ↔ l = [] := by
  cases l with
  | nil => simp [sortAscBy]
  | cons x xs =>
    simp only [sortAscBy]
    constructor
    · intro hc
      exact absurd hc (insertAscBy_ne_nil key x _)
    · intro hc
      cases hc

lemma mem_sortAscBy (key : ParalConf → ℚ) (a : ParalConf) (l : List ParalConf) :
    a ∈ sortAscBy key l ↔ a ∈ l := by
  induction l with
  | nil => simp [sortAscBy]
  | cons x xs ih =>
    simp [sortAscBy, mem_insertAscBy, ih]

lemma pairwise_insertAscBy (key : ParalConf → ℚ) (x : ParalConf) (l : List ParalConf)
    (hl : l.Pairwise (fun a b => key a ≤ key b)) :
    (insertAscBy key x l).Pairwise (fun a b => key a ≤ key b) := by
  induction l with
  | nil => simp [insertAscBy]
  | cons y ys ih =>
    simp only [insertAscBy]
    rcases List.pairwise_cons.mp hl with ⟨hy, hys⟩
    split
    · rename_i hxy
      refine List.pairwise_cons.mpr ⟨?_, hl⟩
      intro b hb
      rcases List.mem_cons.mp hb with hb | hb
      · exact hb ▸ hxy
      · exact le_trans hxy (hy b hb)
    · rename_i hxy
      have hyx : key y ≤ key x := le_of_not_le hxy
      refine List.pairwise_cons.mpr ⟨?_, ih hys⟩
      intro b hb
      rcases (mem_insertAscBy key x b ys).mp hb with hb | hb
      · exact hb ▸ hyx
      · exact hy b hb

lemma pairwise_sortAscBy (key : ParalConf → ℚ) (l : List ParalConf) :
    (sortAscBy key l).Pairwise (fun a b => key a ≤ key b) := by
  induction l with
  | nil => simp [sortAscBy]
  | cons x xs ih => exact pairwise_insertAscBy key x _ ih

lemma pairwise_getLast_max {R : ParalConf → ParalConf → Prop}
    (hrefl : ∀ a, R a a) (htrans : ∀ a b c, R a b → R b c → R a c) :
    ∀ (l : List ParalConf) (hne : l ≠ []) (hp : l.Pairwise R) (a : ParalConf),
      a ∈ l → R a (l.getLast hne) := by
  intro l
  induction l with
  | nil => intro hne; exact absurd rfl hne
  | cons x xs ih =>
    intro hne hp a ha
    cases xs with
    | nil =>
      rcases List.mem_singleton.mp ha with rfl
      exact hrefl a
    | cons y ys =>
      rcases List.pairwise_cons.mp hp with ⟨hx, hxs⟩
      have hlast : (x :: y :: ys).getLast hne = (y :: ys).getLast (by simp) := by
        simp [List.getLast_cons]
      rw [hlast]
      rcases List.mem_cons.mp ha with rfl | ha
      · have hmem : (y :: ys).getLast (by simp) ∈ y :: ys := List.getLast_mem _
        exact hx _ hmem
      · exact ih (by simp) hxs a ha

/-!
## TaskPolicy construction (`TaskPolicy.__init__`)
-/

/-- The `TaskPolicy._DEFAULTS` dictionary. -/
def TaskPolicy.DEFAULTS : List (String × PVal) :=
  [("autoparal", PVal.vint 0),
   ("mode", PVal.vstr "default"),
   ("max_ncpus", PVal.vnone),
   ("use_fw", PVal.vbool false),
   ("constraints", PVal.vlist [])]

/--
The `err_msg` accumulated by `TaskPolicy.__init__` over the supplied
keyword items: one `"Unknow key %s\n"` line (sic) per key not present
in `_DEFAULTS`.
-/
def TaskPolicy.unknown_msg (kwargs : List (String × PVal)) : String :=
  kwargs.foldl
    (fun acc kv =>
      if (dlookup TaskPolicy.DEFAULTS kv.1).isSome then acc
      else acc ++ "Unknow key " ++ kv.1 ++ "\n")
    ""

/--
The dictionary after the default-filling loop of `TaskPolicy.__init__`:
the supplied items plus every `_DEFAULTS` entry whose key was not
supplied.
-/
def TaskPolicy.filled (kwargs : List (String × PVal)) : List (String × PVal) :=
  kwargs ++ TaskPolicy.DEFAULTS.filter (fun kv => (dlookup kwargs kv.1).isNone)

/-- Python truthiness of `self.autoparal` on the filled dictionary. -/
def TaskPolicy.autoparal_truthy (kwargs : List (String × PVal)) : Bool :=
  match dlookup (TaskPolicy.filled kwargs) "autoparal" with
  | some v => v.truthy
  | none => false

/--
`TaskPolicy.__init__(**kwargs)`: collect an error message over unknown
keys and raise `ValueError` if any; fill every missing key from
`_DEFAULTS`; finally raise `ValueError` if `self.autoparal` is truthy
while `self.max_ncpus` is `None`.  Returns the resulting dictionary.
-/
def TaskPolicy.init (kwargs : List (String × PVal)) :
    Except PyErr (List (String × PVal)) :=
  if TaskPolicy.unknown_msg kwargs ≠ "" then
    Except.error (PyErr.valueError (TaskPolicy.unknown_msg kwargs))
  else if TaskPolicy.autoparal_truthy kwargs = true ∧
      dlookup (TaskPolicy.filled kwargs) "max_ncpus" = some PVal.vnone then
    Except.error (PyErr.valueError "When autoparal is not zero, max_ncpus must be specified.")
  else
    Except.ok (TaskPolicy.filled kwargs)

/-!
## TaskResults
-/

/--
`TaskResults`: the mapping with the four mandatory keys (the serialized
event summary is irrelevant to validity checking and omitted) plus the
de-duplicated `_exceptions` list.
-/
structure TaskResults where
  task_name : String
  task_returncode : Option Int
  task_status : Nat
  exceptions : List String
deriving DecidableEq

/--
`TaskResults.push_exceptions(*exceptions)`: append `str(exc)` for each
exception not already present in the list.
-/
def TaskResults.push_exceptions (r : TaskResults) (excs : List String) : TaskResults :=
  excs.foldl
    (fun acc newstr =>
      if newstr ∈ acc.exceptions then acc
      else { acc with exceptions := acc.exceptions ++ [newstr] })
    r

/--
`TaskResults.assert_valid()`: executes
`assert (self["task_returncode"] == 0 and self["task_status"] == self.S_OK)`
inside a `try/except AssertionError`.  When the return code differs
from `0` the `and` short-circuits, the bare assert raises
`AssertionError` (whose `str` is the empty string), which is caught and
pushed; the exception list is returned.  When the return code equals
`0`, evaluation reaches `self.S_OK` — but `TaskResults` (a `dict`
subclass) has no `S_OK` attribute, so an uncaught `AttributeError`
propagates, whatever the status is.
-/
def TaskResults.assert_valid (r : TaskResults) :
    Except PyErr (TaskResults × List String) :=
  if r.task_returncode = some 0 then
    Except.error (PyErr.attributeError "S_OK")
  else
    let r2 := r.push_exceptions [""]
    Except.ok (r2, r2.exceptions)

/-!
## AbinitTask.build
-/

/--
The slice of the filesystem that `AbinitTask.build` touches: the four
directories and the three files it writes, each file `none` when absent
and `some content` when present.
-/
structure BuildFS where
  workdir_exists : Bool
  indata_exists : Bool
  outdata_exists : Bool
  tmpdata_exists : Bool
  files_file : Option String
  input_file : Option String
  job_file : Option String
deriving DecidableEq

/--
`AbinitTask.build()`: create missing directories; write the files-file
only if it does not exist yet; then unconditionally write the input
file (`self.input_file.write(self.make_input())`) and delegate to
`manager.write_jobfile`, which opens the job script for writing
unconditionally.  The strings produced by `self.filesfile_string`,
`self.make_input()` and `qadapter.get_script_str(...)` are passed in.
-/
def AbinitTask.build (fs : BuildFS)
    (filesfile_string make_input job_script : String) : BuildFS :=
  { workdir_exists := true
    indata_exists := true
    outdata_exists := true
    tmpdata_exists := true
    files_file :=
      match fs.files_file with
      | some c => some c
      | none => some filesfile_string
    input_file := some make_input
    job_file := some job_script }

/-!
## Shared helper lemmas
-/

lemma set_status_spec (t : TaskState) (s : Nat) (e : Option String)
    (hs : s ∈ Task.POSSIBLE_STATUS) :
    ∃ t2, Task.set_status t s e = Except.ok (t2, s) ∧ t2._status = s ∧
      t2._returncode = t._returncode := by
  unfold Task.set_status
  rw [if_pos hs]
  dsimp only
  split_ifs <;> exact ⟨_, rfl, rfl, rfl⟩

lemma retSet_status (t : TaskState) (s : Nat) (e : Option String)
    (hs : s ∈ Task.POSSIBLE_STATUS) :
    (Task.retSet t s e).1._status = s := by
  obtain ⟨t2, heq, h2, _⟩ := set_status_spec t s e hs
  simp [Task.retSet, heq, h2]

lemma retSet_snd (t : TaskState) (s : Nat) (e : Option String)
    (hs : s ∈ Task.POSSIBLE_STATUS) :
    (Task.retSet t s e).2 = Except.ok (some s) := by
  obtain ⟨t2, heq, _, _⟩ := set_status_spec t s e hs
  simp [Task.retSet, heq]

lemma retSet_error_eq (t : TaskState) (e : String) (hne : t._status ≠ Task.S_ERROR) :
    Task.retSet t Task.S_ERROR (some e)
      = (⟨Task.S_ERROR, t._returncode, histAppend t.history ("Error info:\n " ++ e)⟩,
         Except.ok (some Task.S_ERROR)) := by
  have hch : (Task.S_ERROR != t._status) = true := by
    simp only [bne_iff_ne, Ne]
    exact fun hc => hne hc.symm
  unfold Task.retSet Task.set_status
  rw [if_pos (by decide)]
  simp [hch, pyStrOpt]

lemma check_status_report_ne_ready (t : TaskState) (env : Env)
    (h : t._status ≠ Task.S_READY) :
    (Task.check_status_report t env).1._status ≠ Task.S_READY := by
  unfold Task.check_status_report
  cases hp : env.parse with
  | parseFail msg =>
    simp [retSet_status]
  | ok report =>
    dsimp only
    split_ifs <;>
      first
        | exact h
        | simp [retSet_status]

lemma check_status_ne_ready (t : TaskState) (env : Env)
    (h : t._status ≠ Task.S_READY) :
    (Task.check_status t env).1._status ≠ Task.S_READY := by
  unfold Task.check_status
  split_ifs <;>
    first
      | exact h
      | exact check_status_report_ne_ready t env h
      | simp [retSet_status]

lemma poll_status_cases (t : TaskState) (rc : Option Int) :
    (Task.poll t rc).1._status = t._status ∨ (Task.poll t rc).1._status = Task.S_DONE := by
  cases rc with
  | none => left; rfl
  | some r =>
    right
    obtain ⟨t2, heq, h2, _⟩ :=
      set_status_spec { t with _returncode := some (some r) } Task.S_DONE none (by decide)
    simp [Task.poll, heq, h2]

lemma wait_status (t : TaskState) (w : Int) :
    (Task.wait t w).1._status = Task.S_DONE := by
  obtain ⟨t2, heq, h2, _⟩ :=
    set_status_spec { t with _returncode := some (some w) } Task.S_DONE none (by decide)
  simp [Task.wait, heq, h2]

lemma submit_status (t : TaskState) :
    (Task.submit t).1._status = Task.S_SUB := by
  unfold Task.submit
  exact retSet_status _ _ _ (by decide)

lemma histAppend_ends_with (h : List String) (s : String) :
    ∃ h0, histAppend h s = h0 ++ [s] := by
  unfold histAppend
  split_ifs with hlen
  · refine ⟨h.drop ((h ++ [s]).length - 10), ?_⟩
    rw [List.drop_append_of_le_length
      (by simp only [List.length_append, List.length_singleton]; omega)]
  · exact ⟨h, rfl⟩

lemma dlookup_append_some (l l2 : List (String × PVal)) (k : String) (v : PVal)
    (h : dlookup l k = some v) : dlookup (l ++ l2) k = some v := by
  induction l with
  | nil => cases h
  | cons kv rest ih =>
    obtain ⟨k1, v1⟩ := kv
    by_cases hk : k1 = k
    · simp only [dlookup, if_pos hk] at h
      simp only [List.cons_append, dlookup, if_pos hk]
      exact h
    · simp only [dlookup, if_neg hk] at h
      simp only [List.cons_append, dlookup, if_neg hk]
      exact ih h

lemma dlookup_append_none (l l2 : List (String × PVal)) (k : String)
    (h : dlookup l k = none) : dlookup (l ++ l2) k = dlookup l2 k := by
  induction l with
  | nil => rfl
  | cons kv rest ih =>
    obtain ⟨k1, v1⟩ := kv
    by_cases hk : k1 = k
    · simp only [dlookup, if_pos hk] at h
      cases h
    · simp only [dlookup, if_neg hk] at h
      simp only [List.cons_append, dlookup, if_neg hk]
      exact ih h

lemma dlookup_filter_key (l : List (String × PVal)) (q : String → Bool) (k : String)
    (hk : q k = true) :
    dlookup (l.filter (fun kv => q kv.1)) k = dlookup l k := by
  induction l with
  | nil => rfl
  | cons kv rest ih =>
    obtain ⟨k1, v1⟩ := kv
    simp only [List.filter_cons]
    by_cases hq : q k1 = true
    · simp only [hq, if_true]
      simp only [dlookup]
      split_ifs
      · rfl
      · exact ih
    · have hk1 : k1 ≠ k := by
        intro hc
        rw [hc, hk] at hq
        exact hq rfl
      simp only [Bool.not_eq_true] at hq
      simp only [hq, Bool.false_eq_true, if_false]
      rw [ih]
      simp only [dlookup, if_neg hk1]

lemma unknown_msg_foldl_ge (l : List (String × PVal)) (acc : String) :
    acc.length ≤
      (l.foldl
        (fun acc kv =>
          if (dlookup TaskPolicy.DEFAULTS kv.1).isSome then acc
          else acc ++ "Unknow key " ++ kv.1 ++ "\n") acc).length := by
  induction l generalizing acc with
  | nil => exact le_refl _
  | cons kv rest ih =>
    simp only [List.foldl_cons]
    refine le_trans ?_ (ih _)
    split_ifs
    · exact le_refl _
    · simp only [String.length_append]
      omega

lemma unknown_msg_foldl_pos (l : List (String × PVal)) (acc : String) (k : String) (v : PVal)
    (hmem : (k, v) ∈ l) (hunk : dlookup TaskPolicy.DEFAULTS k = none) :
    0 <
      (l.foldl
        (fun acc kv =>
          if (dlookup TaskPolicy.DEFAULTS kv.1).isSome then acc
          else acc ++ "Unknow key " ++ kv.1 ++ "\n") acc).length := by
  induction l generalizing acc with
  | nil => cases hmem
  | cons kv rest ih =>
    rcases List.mem_cons.mp hmem with heq | htail
    · simp only [List.foldl_cons, ← heq, hunk, Option.isSome_none, Bool.false_eq_true,
        if_false]
      calc 0 < (acc ++ "Unknow key " ++ k ++ "\n").length := by
            have h1 : 0 < ("Unknow key " : String).length := by decide
            simp only [String.length_append]
            omega
        _ ≤ _ := unknown_msg_foldl_ge rest _
    · simp only [List.foldl_cons]
      exact ih _ htail

lemma unknown_msg_ne_of_unknown (kwargs : List (String × PVal)) (k : String) (v : PVal)
    (hmem : (k, v) ∈ kwargs) (hunk : dlookup TaskPolicy.DEFAULTS k = none) :
    TaskPolicy.unknown_msg kwargs ≠ "" := by
  have hpos : 0 < (TaskPolicy.unknown_msg kwargs).length :=
    unknown_msg_foldl_pos kwargs "" k v hmem hunk
  intro hc
  rw [hc] at hpos
  simp at hpos

lemma unknown_msg_all_known (kwargs : List (String × PVal))
    (hall : ∀ kv ∈ kwargs, (dlookup TaskPolicy.DEFAULTS kv.1).isSome = true) :
    TaskPolicy.unknown_msg kwargs = "" := by
  unfold TaskPolicy.unknown_msg
  induction kwargs with
  | nil => rfl
  | cons kv rest ih =>
    simp only [List.foldl_cons, hall kv (List.mem_cons_self kv rest), if_true]
    exact ih (fun kv2 h2 => hall kv2 (List.mem_cons_of_mem kv h2))

/-!
## Claim theorems
-/

/--
C1 (counterexample): the status of a submitted Job is not non-decreasing
across `wait`/`check_status`.  A task that `wait` just moved to Done (8)
with exit code 0 whose output parses with `run_completed = False`, no
errors and silent stderr/queue-stderr is moved back to Running (4) by
`check_status` — a decrease not performed by `autoparal` and not a reset
to Ready (1).
-/
theorem C1_status_monotonic_counterexample :
    (Task.wait ⟨2, none, []⟩ 0).1 = ⟨8, some (some 0), []⟩ ∧
    (Task.check_status ⟨8, some (some 0), []⟩
        ⟨⟨true, ""⟩, ⟨false, ""⟩, ⟨false, ""⟩, ParseOutcome.ok ⟨false, [], []⟩⟩).1._status
      = Task.S_RUN ∧
    Task.S_RUN < Task.S_DONE ∧ Task.S_RUN ≠ Task.S_READY := by
  refine ⟨rfl, rfl, by decide, by decide⟩

/--
C1 (amended): the status is not monotone under
`submit`/`poll`/`wait`/`check_status` (see the counterexample: `check_status`
lowers Done to Running when the exit code is 0 and no completion or
failure signal is found).  What does hold is the Ready-reset part of the
claim: none of the four operations ever sets the status (back) to Ready —
starting from any non-Ready status they all leave it non-Ready — while
`TaskManager.autoparal`'s reset is exactly a transition to Ready.
-/
theorem C1_ready_reset_only_autoparal :
    ∀ (t : TaskState) (env : Env) (rc : Option Int) (w : Int),
      (∃ t2, TaskManager.autoparal_reset t = Except.ok (t2, Task.S_READY) ∧
        t2._status = Task.S_READY) ∧
      (t._status ≠ Task.S_READY →
        ((Task.check_status t env).1._status ≠ Task.S_READY ∧
         (Task.poll t rc).1._status ≠ Task.S_READY ∧
         (Task.wait t w).1._status ≠ Task.S_READY ∧
         (Task.submit t).1._status ≠ Task.S_READY)) := by
  intro t env rc w
  constructor
  · obtain ⟨t2, heq, h2, _⟩ := set_status_spec t Task.S_READY none (by decide)
    exact ⟨t2, heq, h2⟩
  · intro h
    refine ⟨check_status_ne_ready t env h, ?_, ?_, ?_⟩
    · rcases poll_status_cases t rc with hp | hp <;> rw [hp]
      · exact h
      · decide
    · rw [wait_status]
      decide
    · rw [submit_status]
      decide

/-- C1 (witness for the amended theorem), at a Submitted task. -/
theorem C1_ready_reset_only_autoparal_witness :
    (Task.check_status ⟨2, none, []⟩
        ⟨⟨false, ""⟩, ⟨false, ""⟩, ⟨false, ""⟩, ParseOutcome.parseFail ""⟩).1._status
        ≠ Task.S_READY ∧
    (Task.poll ⟨2, none, []⟩ none).1._status ≠ Task.S_READY ∧
    (Task.wait ⟨2, none, []⟩ 0).1._status ≠ Task.S_READY ∧
    (Task.submit ⟨2, none, []⟩).1._status ≠ Task.S_READY :=
  (C1_ready_reset_only_autoparal ⟨2, none, []⟩
    ⟨⟨false, ""⟩, ⟨false, ""⟩, ⟨false, ""⟩, ParseOutcome.parseFail ""⟩ none 0).2 (by decide)

/--
C2 (counterexample): `select_optimal_conf` on an empty `ParalHints` does
not return a configuration — `hints[-1]` on the empty sorted copy raises
`IndexError`.
-/
theorem C2_empty_select_counterexample :
    ¬ ∃ c, ParalHints.select_optimal_conf ⟨[], []⟩ [] = Except.ok c := by
  rintro ⟨c, hc⟩
  rw [show ParalHints.select_optimal_conf ⟨[], []⟩ ([] : List (String × PVal))
      = Except.error PyErr.indexError from rfl] at hc
  cases hc

/--
C2 (amended): for every empty `ParalHints` and every policy,
`select_optimal_conf` deterministically raises `IndexError` (it indexes
`hints[-1]` on the empty list) instead of returning a configuration.
-/
theorem C2_empty_select_raises :
    ∀ (h : ParalHints) (policy : List (String × PVal)), h._confs = [] →
      ParalHints.select_optimal_conf h policy = Except.error PyErr.indexError := by
  intro h policy hc
  obtain ⟨hdr, confs⟩ := h
  cases hc
  rfl

/-- C2 (witness for the amended theorem). -/
theorem C2_empty_select_raises_witness :
    ParalHints.select_optimal_conf ⟨[("version", 1)], []⟩ []
      = Except.error PyErr.indexError :=
  C2_empty_select_raises ⟨[("version", 1)], []⟩ [] rfl

/--
C4 (code bug): for a submitted task with recorded exit code 0 and no
output artifact, `check_status` with the stderr artifact also absent
returns the unchanged status (first conjunct, as the claim says); but
with a non-empty stderr artifact the source evaluates
`self.set_status(self.S_ERROR, err_info=err_msf)` where `err_msf` is an
undefined name (a typo for `err_msg`), so a `NameError` propagates and
the status is never set to Error (second conjunct), contradicting the
claim.
-/
theorem C4_stderr_nameError_bug :
    Task.check_status ⟨2, some (some 0), []⟩
        ⟨⟨false, ""⟩, ⟨false, ""⟩, ⟨false, ""⟩, ParseOutcome.parseFail "no output file"⟩
      = (⟨2, some (some 0), []⟩, Except.ok (some 2)) ∧
    Task.check_status ⟨2, some (some 0), []⟩
        ⟨⟨false, ""⟩, ⟨true, "Fortran runtime error"⟩, ⟨false, ""⟩,
          ParseOutcome.parseFail "no output file"⟩
      = (⟨2, some (some 0), []⟩, Except.error (PyErr.nameError "err_msf")) :=
  ⟨rfl, rfl⟩

/--
C5 (code bug): for a submitted task with exit code 0 whose output parses
with `run_completed = False` and a non-empty error list, the source
evaluates `err_info=str(report.errors) + str(report_bus)` where
`report_bus` is an undefined name (a typo for `report.bugs`), so a
`NameError` propagates and the status is never set to Error,
contradicting the claim that `check_status` returns Error without
raising.
-/
theorem C5_report_nameError_bug :
    Task.check_status ⟨2, some (some 0), []⟩
        ⟨⟨true, ""⟩, ⟨false, ""⟩, ⟨false, ""⟩,
          ParseOutcome.ok ⟨false, ["scf convergence error"], []⟩⟩
      = (⟨2, some (some 0), []⟩, Except.error (PyErr.nameError "report_bus")) := rfl

/--
C6 (code bug): with exit code 1 and status Error, `assert_valid` appends
exactly one exception string (the empty `str(AssertionError())`) and a
second call does not duplicate it (first two conjuncts, as the claim
says); but with exit code 0 and status Error the `and` does not
short-circuit, `self.S_OK` is evaluated, and `TaskResults` has no `S_OK`
attribute, so an uncaught `AttributeError` propagates (third conjunct),
contradicting the claim for records with `task_returncode = 0` and
`task_status ≠ Ok`.
-/
theorem C6_assert_valid_attributeError_bug :
    TaskResults.assert_valid ⟨"task", some 1, 16, []⟩
      = Except.ok (⟨"task", some 1, 16, [""]⟩, [""]) ∧
    TaskResults.assert_valid ⟨"task", some 1, 16, [""]⟩
      = Except.ok (⟨"task", some 1, 16, [""]⟩, [""]) ∧
    TaskResults.assert_valid ⟨"task", some 0, 16, []⟩
      = Except.error (PyErr.attributeError "S_OK") :=
  ⟨rfl, rfl, rfl⟩

/--
C7 (counterexample): `build` does overwrite existing files — with an
existing input file and job script, building with freshly generated
content replaces both.
-/
theorem C7_build_overwrite_counterexample :
    (AbinitTask.build ⟨true, true, true, true, some "files", some "old input", some "old script"⟩
        "files" "new input" "new script").input_file ≠ some "old input" ∧
    (AbinitTask.build ⟨true, true, true, true, some "files", some "old input", some "old script"⟩
        "files" "new input" "new script").job_file ≠ some "old script" := by
  exact ⟨by decide, by decide⟩

/--
C7 (amended): `build` never removes the directories, preserves an
existing files-file verbatim, but unconditionally rewrites the input
file with `make_input()` and the job script with the rendered script;
consequently running `build` twice with the same generated content is
idempotent.
-/
theorem C7_build_partial_idempotent :
    ∀ (fs : BuildFS) (ff mi js : String),
      AbinitTask.build (AbinitTask.build fs ff mi js) ff mi js = AbinitTask.build fs ff mi js ∧
      (∀ c, fs.files_file = some c → (AbinitTask.build fs ff mi js).files_file = some c) ∧
      (AbinitTask.build fs ff mi js).input_file = some mi ∧
      (AbinitTask.build fs ff mi js).job_file = some js := by
  intro fs ff mi js
  refine ⟨?_, ?_, rfl, rfl⟩
  · cases hf : fs.files_file <;> simp [AbinitTask.build, hf]
  · intro c hc
    simp [AbinitTask.build, hc]

/-- C7 (witness for the amended theorem). -/
theorem C7_build_partial_idempotent_witness :
    (AbinitTask.build ⟨true, true, true, true, some "x", some "a", some "b"⟩
        "f" "i" "j").files_file = some "x" :=
  (C7_build_partial_idempotent ⟨true, true, true, true, some "x", some "a", some "b"⟩
    "f" "i" "j").2.1 "x" rfl

/--
C9 (counterexample): on a Ready task (status 1 < Submitted),
`check_status` is a no-op on the state but its return value is Python
`None` (the source executes a bare `return`), not the current status.
-/
theorem C9_checkstatus_returns_none_counterexample :
    Task.check_status ⟨1, none, []⟩
        ⟨⟨false, ""⟩, ⟨false, ""⟩, ⟨false, ""⟩, ParseOutcome.parseFail ""⟩
      = (⟨1, none, []⟩, Except.ok none) ∧
    Task.check_status ⟨1, none, []⟩
        ⟨⟨false, ""⟩, ⟨false, ""⟩, ⟨false, ""⟩, ParseOutcome.parseFail ""⟩
      ≠ (⟨1, none, []⟩, Except.ok (some 1)) := by
  exact ⟨rfl, by decide⟩

/--
C9 (amended): for every task whose status is strictly below Submitted,
`check_status` leaves all state unchanged and returns `None` (a bare
`return`), not the current status.
-/
theorem C9_checkstatus_noop_below_submitted :
    ∀ (t : TaskState) (env : Env), t._status < Task.S_SUB →
      Task.check_status t env = (t, Except.ok none) := by
  intro t env h
  unfold Task.check_status
  rw [if_pos h]

/-- C9 (witness for the amended theorem). -/
theorem C9_checkstatus_noop_below_submitted_witness :
    Task.check_status ⟨1, some (some 5), ["Submitted"]⟩
        ⟨⟨true, "out"⟩, ⟨true, "err"⟩, ⟨true, "qerr"⟩, ParseOutcome.ok ⟨true, [], []⟩⟩
      = (⟨1, some (some 5), ["Submitted"]⟩, Except.ok none) :=
  C9_checkstatus_noop_below_submitted ⟨1, some (some 5), ["Submitted"]⟩
    ⟨⟨true, "out"⟩, ⟨true, "err"⟩, ⟨true, "qerr"⟩, ParseOutcome.ok ⟨true, [], []⟩⟩ (by decide)

lemma dlookup_filter_isNone (l kwargs : List (String × PVal)) (k : String)
    (hk : (dlookup kwargs k).isNone = true) :
    dlookup (l.filter (fun kv => (dlookup kwargs kv.1).isNone)) k = dlookup l k :=
  dlookup_filter_key l (fun s => (dlookup kwargs s).isNone) k hk

/--
C3: for every non-empty hint set, `select_optimal_conf` returns a member
of the set whose speedup (`efficiency * tot_ncpus`) is maximal; in
particular, over the four configurations of the source's docstring
it returns the configuration with speedup 27.0.
-/
theorem C3_select_optimal_max :
    (∀ (h : ParalHints) (policy : List (String × PVal)), h._confs ≠ [] →
      ∃ c, ParalHints.select_optimal_conf h policy = Except.ok c ∧ c ∈ h._confs ∧
        ∀ x ∈ h._confs, x.speedup ≤ c.speedup) ∧
    ParalHints.select_optimal_conf
      ⟨[("version", 1), ("autoparal", 1), ("max_ncpus", 108)],
        [⟨84, 84, 1, 0, 1/56, []⟩, ⟨108, 108, 1, 0, 1/4, []⟩,
         ⟨96, 96, 1, 0, 1/384, []⟩, ⟨108, 108, 1, 0, 1/432, []⟩]⟩ []
      = Except.ok ⟨108, 108, 1, 0, 1/4, []⟩ := by
  constructor
  · intro h policy hne
    have hsne : sortAscBy ParalConf.speedup h._confs ≠ [] := by
      rw [Ne, sortAscBy_eq_nil]
      exact hne
    refine ⟨(sortAscBy ParalConf.speedup h._confs).getLast hsne, ?_, ?_, ?_⟩
    · unfold ParalHints.select_optimal_conf ParalHints.copy ParalHints.sort_by_speedup
      dsimp only
      rw [dif_neg hsne]
    · exact (mem_sortAscBy ParalConf.speedup _ h._confs).mp (List.getLast_mem hsne)
    · intro x hx
      exact pairwise_getLast_max (R := fun a b => a.speedup ≤ b.speedup)
        (fun a => le_refl _) (fun a b c hab hbc => le_trans hab hbc)
        (sortAscBy ParalConf.speedup h._confs) hsne
        (pairwise_sortAscBy ParalConf.speedup h._confs) x
        ((mem_sortAscBy ParalConf.speedup x h._confs).mpr hx)
  · have hsort : sortAscBy ParalConf.speedup
        [⟨84, 84, 1, 0, 1/56, []⟩, ⟨108, 108, 1, 0, 1/4, []⟩,
         ⟨96, 96, 1, 0, 1/384, []⟩, ⟨108, 108, 1, 0, 1/432, []⟩]
        = [⟨96, 96, 1, 0, 1/384, []⟩, ⟨108, 108, 1, 0, 1/432, []⟩,
           ⟨84, 84, 1, 0, 1/56, []⟩, ⟨108, 108, 1, 0, 1/4, []⟩] := by
      norm_num [sortAscBy, insertAscBy, ParalConf.speedup]
    simp only [ParalHints.select_optimal_conf, ParalHints.copy, ParalHints.sort_by_speedup,
      hsort]
    rfl

/-- C3 (witness), at a one-element hint set. -/
theorem C3_select_optimal_max_witness :
    ∃ c, ParalHints.select_optimal_conf ⟨[], [⟨2, 2, 1, 0, 1, []⟩]⟩ [] = Except.ok c ∧
      c ∈ [(⟨2, 2, 1, 0, 1, []⟩ : ParalConf)] ∧
      ∀ x ∈ [(⟨2, 2, 1, 0, 1, []⟩ : ParalConf)], x.speedup ≤ c.speedup :=
  C3_select_optimal_max.1 ⟨[], [⟨2, 2, 1, 0, 1, []⟩]⟩ [] (by simp)

/--
C8: `TaskPolicy` construction raises `ValueError` when a supplied key is
not one of the five known keys; raises `ValueError` when `autoparal` is
a nonzero integer while `max_ncpus` is `None` (supplied as `None` or
left to its default); and with no fields succeeds with every default
filled (`autoparal=0`, `mode="default"`, `max_ncpus=None`,
`use_fw=False`, `constraints=[]`).
-/
theorem C8_taskpolicy_validation :
    (∀ (kwargs : List (String × PVal)) (k : String) (v : PVal),
        (k, v) ∈ kwargs → dlookup TaskPolicy.DEFAULTS k = none →
        ∃ msg, TaskPolicy.init kwargs = Except.error (PyErr.valueError msg)) ∧
    (∀ (kwargs : List (String × PVal)) (n : Int),
        (∀ kv ∈ kwargs, (dlookup TaskPolicy.DEFAULTS kv.1).isSome = true) →
        dlookup kwargs "autoparal" = some (PVal.vint n) → n ≠ 0 →
        (dlookup kwargs "max_ncpus" = none ∨ dlookup kwargs "max_ncpus" = some PVal.vnone) →
        TaskPolicy.init kwargs
          = Except.error
              (PyErr.valueError "When autoparal is not zero, max_ncpus must be specified.")) ∧
    TaskPolicy.init []
      = Except.ok
          [("autoparal", PVal.vint 0), ("mode", PVal.vstr "default"),
           ("max_ncpus", PVal.vnone), ("use_fw", PVal.vbool false),
           ("constraints", PVal.vlist [])] := by
  refine ⟨?_, ?_, by decide⟩
  · intro kwargs k v hmem hunk
    refine ⟨TaskPolicy.unknown_msg kwargs, ?_⟩
    unfold TaskPolicy.init
    rw [if_pos (unknown_msg_ne_of_unknown kwargs k v hmem hunk)]
  · intro kwargs n hall hap hn hmax
    have hmsg : TaskPolicy.unknown_msg kwargs = "" := unknown_msg_all_known kwargs hall
    unfold TaskPolicy.init
    rw [if_neg (not_not_intro hmsg), if_pos ?_]
    constructor
    · unfold TaskPolicy.autoparal_truthy TaskPolicy.filled
      rw [dlookup_append_some kwargs _ _ _ hap]
      exact bne_iff_ne.mpr hn
    · unfold TaskPolicy.filled
      rcases hmax with hmax | hmax
      · rw [dlookup_append_none kwargs _ _ hmax,
          dlookup_filter_isNone TaskPolicy.DEFAULTS kwargs "max_ncpus" (by rw [hmax]; rfl)]
        rfl
      · exact dlookup_append_some kwargs _ _ _ hmax

/-- C8 (witness): an unknown key and a missing `max_ncpus` both fail. -/
theorem C8_taskpolicy_validation_witness :
    (∃ msg, TaskPolicy.init [("badkey", PVal.vint 1)] = Except.error (PyErr.valueError msg)) ∧
    TaskPolicy.init [("autoparal", PVal.vint 1)]
      = Except.error
          (PyErr.valueError "When autoparal is not zero, max_ncpus must be specified.") :=
  ⟨C8_taskpolicy_validation.1 [("badkey", PVal.vint 1)] "badkey" (PVal.vint 1)
      (by simp) (by decide),
   C8_taskpolicy_validation.2.1 [("autoparal", PVal.vint 1)] 1
      (by decide) (by decide) (by decide) (Or.inl (by decide))⟩

/--
C10: after a `poll()` that returned `None` (process still running), the
`_returncode` attribute holds `None`; a subsequent `check_status` on the
submitted task compares `self.returncode != 0`, which is true for
`None`, and so sets and returns status Error with err_info
`"return code None"` instead of leaving the task queued/running.
-/
theorem C10_poll_none_then_checkstatus_error :
    ∀ (t : TaskState) (env : Env), Task.S_SUB ≤ t._status → t._status ≠ Task.S_ERROR →
      Task.poll t none = ({ t with _returncode := some none }, Except.ok none) ∧
      Task.check_status { t with _returncode := some none } env
        = (⟨Task.S_ERROR, some none, histAppend t.history "Error info:\n return code None"⟩,
           Except.ok (some Task.S_ERROR)) := by
  intro t env hge hne
  refine ⟨rfl, ?_⟩
  have h1 : ¬ (({ t with _returncode := some none } : TaskState)._status < Task.S_SUB) := by
    show ¬ (t._status < Task.S_SUB)
    omega
  have h2 : Task.returncode { t with _returncode := some none } ≠ some 0 := by
    intro hc
    simp [Task.returncode] at hc
  unfold Task.check_status
  rw [if_neg h1, if_pos h2]
  rw [retSet_error_eq _ _
    (show ({ t with _returncode := some none } : TaskState)._status ≠ Task.S_ERROR from hne)]
  rfl

/-- C10 (witness), at a Submitted task with no artifacts. -/
theorem C10_poll_none_then_checkstatus_error_witness :
    Task.poll ⟨2, none, []⟩ none = (⟨2, some none, []⟩, Except.ok none) ∧
    Task.check_status ⟨2, some none, []⟩
        ⟨⟨false, ""⟩, ⟨false, ""⟩, ⟨false, ""⟩, ParseOutcome.parseFail ""⟩
      = (⟨16, some none, ["Error info:\n return code None"]⟩, Except.ok (some 16)) :=
  C10_poll_none_then_checkstatus_error ⟨2, none, []⟩
    ⟨⟨false, ""⟩, ⟨false, ""⟩, ⟨false, ""⟩, ParseOutcome.parseFail ""⟩ (by decide) (by decide)
